import Mathlib

/-!
Verification development for the agent-orchestration core of the repository:
`src/agents/orchestrator.py` (task queue, resource manager, scheduler,
task retry), `src/agents/communication.py` (message bus), and
`src/enhanced_chatbot /agents/workflow_manager.py` (workflow driver).

Python dicts are embedded either as insertion-ordered association lists
(when the code iterates over them) or as total functions into `Option`
(when only point lookup/update is used).  Python floats that hold resource
amounts and load factors are embedded as rationals.  Wall-clock instants
(`datetime.now()`) are embedded as integer timestamps passed explicitly to
every operation that reads the clock.  Opaque payload bags (`parameters`,
`content`, `result` dictionaries) and log calls are not modelled; they are
never inspected by the code under verification.
-/

namespace Orch

/-- `AgentType` from src/agents/orchestrator.py. -/
inductive AgentType where
  | data_analyst
  | preprocessing
  | model_trainer
  | evaluator
  | forecaster
  | supervisor
deriving DecidableEq

/-- `AgentStatus` from src/agents/orchestrator.py. -/
inductive AgentStatus where
  | idle
  | busy
  | completed
  | error
  | paused
  | initializing
  | terminating
deriving DecidableEq

/-- `TaskStatus` from src/agents/orchestrator.py. -/
inductive TaskStatus where
  | pending
  | assigned
  | running
  | completed
  | failed
  | cancelled
  | waiting_dependencies
deriving DecidableEq

/-- `TaskPriority` from src/agents/orchestrator.py. -/
inductive TaskPriority where
  | low
  | normal
  | high
  | critical
deriving DecidableEq

/-- Numeric value of each priority (`LOW = 1 .. CRITICAL = 4`). -/
def TaskPriority.value : TaskPriority → Nat
  | .low => 1
  | .normal => 2
  | .high => 3
  | .critical => 4

/-- `ResourceRequirement` dataclass. -/
structure ResourceRequirement where
  resource_type : String
  amount : ℚ
  unit : String
  description : String := ""
deriving DecidableEq

/-- `Task` dataclass (fields inspected by the queue, the scheduler and the
retry logic; the opaque `parameters`/`result`/`callback` bags and the
datetime bookkeeping fields are omitted). -/
structure Task where
  id : String
  name : String
  type : String
  agent_type : AgentType
  priority : TaskPriority := .normal
  dependencies : List String := []
  status : TaskStatus := .pending
  assigned_agent : Option String := none
  error : Option String := none
  retry_count : Nat := 0
  max_retries : Nat := 3
  resource_requirements : List ResourceRequirement := []
deriving DecidableEq

/-- `Task.can_retry`. -/
def Task.can_retry (t : Task) : Bool :=
  t.retry_count < t.max_retries

/-- Association-list lookup with string keys, mirroring Python `dict`
access (`d[k]` / `k in d`). -/
def lookupStr {α : Type} : List (String × α) → String → Option α
  | [], _ => none
  | (k, v) :: rest, key => if k = key then some v else lookupStr rest key

/-- Association-list update mirroring Python `d[k] = v`: replaces the value
in place if the key is present, otherwise appends at the end (insertion
order is preserved, as for a Python dict). -/
def setItemStr {α : Type} : List (String × α) → String → α → List (String × α)
  | [], key, v => [(key, v)]
  | (k, w) :: rest, key, v =>
      if k = key then (key, v) :: rest else (k, w) :: setItemStr rest key v

/-- `TaskQueue` state: the four priority buckets (`deque`s), the
`waiting_dependencies` dict (insertion ordered) and the `completed_tasks`
set (membership list). -/
structure TaskQueue where
  queues : TaskPriority → List Task
  waiting_dependencies : List (String × Task)
  completed_tasks : List String

/-- `TaskQueue.__init__`. -/
def TaskQueue.init : TaskQueue :=
  { queues := fun _ => [], waiting_dependencies := [], completed_tasks := [] }

/-- `TaskQueue._dependencies_met`: every dependency id is in the completed
set; an empty dependency list is vacuously satisfied. -/
def dependencies_met (q : TaskQueue) (t : Task) : Bool :=
  t.dependencies.all (fun dep_id => q.completed_tasks.contains dep_id)

/-- `TaskQueue.add_task`: push to the matching priority bucket when the
dependencies are met, otherwise record the task (with status
`WAITING_DEPENDENCIES`) in the waiting dict. -/
def add_task (q : TaskQueue) (t : Task) : TaskQueue :=
  if dependencies_met q t then
    { q with queues := fun p => if p = t.priority then q.queues p ++ [t] else q.queues p }
  else
    { q with waiting_dependencies :=
        setItemStr q.waiting_dependencies t.id { t with status := .waiting_dependencies } }

/-- One bucket scan of `TaskQueue.get_next_task`: return the first task
matching the optional agent-type filter together with the bucket with that
task removed. -/
def find_match (f : Option AgentType) : List Task → Option (Task × List Task)
  | [] => none
  | t :: rest =>
      if f = none ∨ f = some t.agent_type then some (t, rest)
      else
        match find_match f rest with
        | some (t2, rest2) => some (t2, t :: rest2)
        | none => none

/-- Replace one priority bucket of a queue. -/
def set_bucket (q : TaskQueue) (p : TaskPriority) (l : List Task) : TaskQueue :=
  { q with queues := fun p2 => if p2 = p then l else q.queues p2 }

/-- Scan a single bucket. -/
def try_bucket (f : Option AgentType) (q : TaskQueue) (p : TaskPriority) :
    Option (Task × TaskQueue) :=
  match find_match f (q.queues p) with
  | some (t, rest) => some (t, set_bucket q p rest)
  | none => none

/-- `TaskQueue.get_next_task`: scan the buckets in the order CRITICAL,
HIGH, NORMAL, LOW and return (and remove) the first matching task. -/
def get_next_task (f : Option AgentType) (q : TaskQueue) : Option (Task × TaskQueue) :=
  match try_bucket f q .critical with
  | some r => some r
  | none =>
    match try_bucket f q .high with
    | some r => some r
    | none =>
      match try_bucket f q .normal with
      | some r => some r
      | none => try_bucket f q .low

/-- A queue with one more id in the completed set (the state against which
`mark_task_completed` re-evaluates the waiting tasks). -/
def with_completed (q : TaskQueue) (task_id : String) : TaskQueue :=
  { q with completed_tasks := q.completed_tasks ++ [task_id] }

/-- The second loop of `mark_task_completed`: a ready task gets status
`PENDING` and is appended to its priority bucket. -/
def enqueue_ready (acc : TaskQueue) (t : Task) : TaskQueue :=
  let t2 : Task := { t with status := .pending }
  { acc with queues := fun p => if p = t2.priority then acc.queues p ++ [t2] else acc.queues p }

/-- `TaskQueue.mark_task_completed`: add the id to the completed set, move
every waiting task whose dependencies are now all completed into its
priority bucket (in waiting-dict order), and keep the rest waiting. -/
def mark_task_completed (q : TaskQueue) (task_id : String) : TaskQueue :=
  let q1 := with_completed q task_id
  let ready := q1.waiting_dependencies.filter (fun e => dependencies_met q1 e.2)
  let rest := q1.waiting_dependencies.filter (fun e => ! dependencies_met q1 e.2)
  (ready.map (fun e => e.2)).foldl enqueue_ready
    { q1 with waiting_dependencies := rest }

/-- `ResourceManager` state.  `available_resources` is the capacity dict
(read with `.get(type, 0)`), `allocated_resources` the
`defaultdict(float)`, and `resource_reservations` the per-task reservation
dict. -/
structure ResourceManager where
  available_resources : String → ℚ
  allocated_resources : String → ℚ
  resource_reservations : String → Option (List ResourceRequirement)

/-- `ResourceManager.__init__`: cpu/memory/network/storage at 100 each. -/
def ResourceManager.init : ResourceManager :=
  { available_resources := fun s =>
      if s = "cpu" then 100 else
      if s = "memory" then 100 else
      if s = "network" then 100 else
      if s = "storage" then 100 else 0
    allocated_resources := fun _ => 0
    resource_reservations := fun _ => none }

/-- `ResourceManager.can_allocate`: each requirement is checked
independently against the same allocated counters. -/
def can_allocate (rm : ResourceManager) (requirements : List ResourceRequirement) : Bool :=
  requirements.all (fun req =>
    ! decide (rm.available_resources req.resource_type
        - rm.allocated_resources req.resource_type < req.amount))

/-- `ResourceManager.allocate_resources`: re-check, then add every
requirement amount to its counter and record the reservation. -/
def allocate_resources (rm : ResourceManager) (task_id : String)
    (requirements : List ResourceRequirement) : Bool × ResourceManager :=
  if can_allocate rm requirements then
    (true,
      { rm with
        allocated_resources :=
          requirements.foldl
            (fun f req => fun s =>
              if s = req.resource_type then f s + req.amount else f s)
            rm.allocated_resources
        resource_reservations := fun k =>
          if k = task_id then some requirements else rm.resource_reservations k })
  else (false, rm)

/-- `ResourceManager.release_resources`: subtract the recorded reservation
and delete it; a missing reservation is a no-op. -/
def release_resources (rm : ResourceManager) (task_id : String) : ResourceManager :=
  match rm.resource_reservations task_id with
  | none => rm
  | some requirements =>
      { rm with
        allocated_resources :=
          requirements.foldl
            (fun f req => fun s =>
              if s = req.resource_type then f s - req.amount else f s)
            rm.allocated_resources
        resource_reservations := fun k =>
          if k = task_id then none else rm.resource_reservations k }

/-- `Agent` dataclass (the fields read and written by `is_available` and
`assign_task`; capability records, performance statistics and datetime
bookkeeping are omitted as they do not take part in the explicit-agent
scheduling path). -/
structure Agent where
  id : String
  name : String
  type : AgentType
  status : AgentStatus := .idle
  current_task : Option String := none
  progress : ℚ := 0
  current_load : ℚ := 0
  health_status : String := "healthy"
  error_count : Nat := 0
deriving DecidableEq

/-- `Agent.is_available`: Idle, load below 1, healthy. -/
def Agent.is_available (a : Agent) : Bool :=
  a.status = .idle ∧ a.current_load < 1 ∧ a.health_status = "healthy"

/-- The orchestrator registries touched by the scheduler:
`self.tasks`, `self.agents`, `self.task_queue`, `self.resource_manager`. -/
structure OrchState where
  tasks : List (String × Task)
  agents : List (String × Agent)
  task_queue : TaskQueue
  resource_manager : ResourceManager

/-- Commit phase of `assign_task` (reached after every check passed):
allocate when required, mark the task Assigned and the agent Busy, and
raise the agent load by 0.5 capped at 1. -/
def assign_commit (st : OrchState) (task : Task) (agent : Agent)
    (rm : ResourceManager) : Bool × OrchState :=
  let task2 : Task := { task with assigned_agent := some agent.id, status := .assigned }
  let agent2 : Agent :=
    { agent with
      current_task := some task.name
      status := .busy
      current_load := min 1 (agent.current_load + 1 / 2) }
  (true,
    { st with
      tasks := setItemStr st.tasks task.id task2
      agents := setItemStr st.agents agent.id agent2
      resource_manager := rm })

/-- `EnhancedAgentOrchestrator.assign_task` for an explicitly named agent
(the form used by the scheduler loop): fails without changing any state
when the task is missing or not Pending, the agent is missing or not
available, or the admission check `can_allocate` rejects the task's
resource requirements. -/
def assign_task (st : OrchState) (task_id agent_id : String) : Bool × OrchState :=
  match lookupStr st.tasks task_id with
  | none => (false, st)
  | some task =>
    if task.status = .pending then
      match lookupStr st.agents agent_id with
      | none => (false, st)
      | some agent =>
        if agent.is_available then
          if task.resource_requirements ≠ [] then
            if can_allocate st.resource_manager task.resource_requirements then
              assign_commit st task agent
                (allocate_resources st.resource_manager task_id
                  task.resource_requirements).2
            else (false, st)
          else assign_commit st task agent st.resource_manager
        else (false, st)
    else (false, st)

/-- One iteration of the loop body of
`EnhancedAgentOrchestrator._schedule_pending_tasks` for one available
agent: dequeue the next matching task (removing it from its bucket) and
try to assign it to the agent.  Spawning the execution coroutine is not
part of the scheduling state. -/
def schedule_for_agent (st : OrchState) (agent : Agent) : OrchState :=
  match get_next_task (some agent.type) st.task_queue with
  | none => st
  | some (task, q2) =>
      let st1 : OrchState := { st with task_queue := q2 }
      (assign_task st1 task.id agent.id).2

/-- The terminal part of `_execute_task_async` restricted to the task and
the queue: on success mark the task Completed and notify the queue; on
failure mark it Failed and, when `can_retry`, increment the retry counter,
clear the assignment, reset to Pending and re-enqueue via `add_task`. -/
def execute_task_result (success : Bool) (t : Task) (q : TaskQueue) : Task × TaskQueue :=
  if success then
    let t2 : Task := { t with status := .completed }
    (t2, mark_task_completed q t2.id)
  else
    let t2 : Task := { t with status := .failed, error := some "task error" }
    if t2.can_retry then
      let t3 : Task :=
        { t2 with retry_count := t2.retry_count + 1, status := .pending, assigned_agent := none }
      (t3, add_task q t3)
    else (t2, q)

/-- Scenario harness: dequeue the next task (no filter) and run one
execution attempt with the given outcome. -/
def attempt (success : Bool) (s : Task × TaskQueue) : Task × TaskQueue :=
  match get_next_task none s.2 with
  | none => s
  | some (t, q2) => execute_task_result success t q2

end Orch

namespace Wfm

/-- `WorkflowStatus` from src/enhanced_chatbot /agents/workflow_manager.py. -/
inductive WorkflowStatus where
  | created
  | running
  | paused
  | completed
  | failed
  | cancelled
deriving DecidableEq

/-- `StepStatus` from the workflow manager. -/
inductive StepStatus where
  | pending
  | running
  | completed
  | failed
  | skipped
  | cancelled
deriving DecidableEq

/-- `WorkflowStep` dataclass (fields driving execution; parameter bags and
datetime bookkeeping omitted). -/
structure WorkflowStep where
  id : String
  name : String
  agent_type : Orch.AgentType
  task_type : String
  dependencies : List String := []
  status : StepStatus := .pending
  priority : Orch.TaskPriority := .normal
  retry_count : Nat := 0
  max_retries : Nat := 3
  allow_failure : Bool := false
  task_id : Option String := none
  error : Option String := none
deriving DecidableEq

/-- `Workflow` dataclass. -/
structure Workflow where
  id : String
  name : String
  steps : List WorkflowStep
  status : WorkflowStatus := .created
  current_step_index : Nat := 0
  progress : ℚ := 0
  error : Option String := none
deriving DecidableEq

/-- `Workflow._dependencies_met`: every dependency id names a step whose
status is COMPLETED. -/
def step_dependencies_met (wf : Workflow) (step : WorkflowStep) : Bool :=
  step.dependencies.all (fun dep_id =>
    ((wf.steps.filter (fun s => decide (s.status = .completed))).map
      (fun s => s.id)).contains dep_id)

/-- `Workflow.get_next_pending_step`: first step in list order that is
PENDING with all dependencies completed. -/
def get_next_pending_step (wf : Workflow) : Option WorkflowStep :=
  wf.steps.find? (fun s =>
    decide (s.status = .pending) && step_dependencies_met wf s)

/-- `Workflow.calculate_progress`: completed steps over total steps (an
empty workflow counts as 100%).  Note the code counts only COMPLETED
steps here, not SKIPPED ones. -/
def calculate_progress (wf : Workflow) : ℚ :=
  if wf.steps = [] then 100
  else ((wf.steps.filter (fun s => decide (s.status = .completed))).length : ℚ)
    / (wf.steps.length : ℚ) * 100

/-- `Workflow.is_complete`: every step COMPLETED or SKIPPED. -/
def Workflow.is_complete (wf : Workflow) : Bool :=
  wf.steps.all (fun s =>
    decide (s.status = .completed) || decide (s.status = .skipped))

/-- `Workflow.has_failed`: some step FAILED whose `allow_failure` is
false. -/
def Workflow.has_failed (wf : Workflow) : Bool :=
  wf.steps.any (fun s => decide (s.status = .failed) && ! s.allow_failure)

/-- Retry recursion of `WorkflowManager._execute_workflow_step`, compiled
to structural recursion on the remaining retry budget
`max_retries - retry_count`.  The task submission and the polling loop are
abstracted by `outcome`, which gives the eventual terminal success of the
task a step submits (true exactly when the polled task status is
"completed"). -/
def execute_step_aux (outcome : String → Bool) : Nat → WorkflowStep → Bool × WorkflowStep
  | 0, step =>
      if outcome step.id then (true, { step with status := .completed })
      else (false, { step with status := .failed, error := some "Task failed" })
  | budget + 1, step =>
      if outcome step.id then (true, { step with status := .completed })
      else
        execute_step_aux outcome budget
          { step with retry_count := step.retry_count + 1, status := .pending }

/-- `WorkflowManager._execute_workflow_step`: succeed and mark COMPLETED,
or retry while `retry_count < max_retries` and finally mark FAILED. -/
def execute_step (outcome : String → Bool) (step : WorkflowStep) : Bool × WorkflowStep :=
  execute_step_aux outcome (step.max_retries - step.retry_count) step

/-- Write an executed step back into the step list (the Python code
mutates the step object held in the list; steps are identified by id). -/
def update_step (steps : List WorkflowStep) (s : WorkflowStep) : List WorkflowStep :=
  steps.map (fun t => if t.id = s.id then s else t)

/-- The `while` loop of `WorkflowManager._execute_workflow_steps`, with an
explicit fuel bound (each iteration either terminates the loop or moves
one PENDING step to a terminal status, so any fuel above the step count is
enough).  A deadlock — no eligible step while the workflow is incomplete —
fails the workflow with an explicit error; a failed step whose
`allow_failure` is false fails the workflow and stops the loop; a failed
step with `allow_failure` set lets the loop continue. -/
def run_steps (outcome : String → Bool) : Nat → Workflow → Workflow
  | 0, wf => wf
  | fuel + 1, wf =>
    if ! wf.is_complete && ! wf.has_failed then
      match get_next_pending_step wf with
      | none =>
          if wf.is_complete then wf
          else
            { wf with
              status := .failed
              error := some "Workflow deadlock: no steps can proceed" }
      | some step =>
          let r := execute_step outcome step
          let wf2 : Workflow := { wf with steps := update_step wf.steps r.2 }
          if ! r.1 && ! step.allow_failure then
            { wf2 with
              status := .failed
              error := some "step failed and is not allowed to fail" }
          else
            run_steps outcome fuel { wf2 with progress := calculate_progress wf2 }
    else wf

/-- `WorkflowManager._execute_workflow_steps`: run the driver loop, then
set the final status — COMPLETED (with progress 100) exactly when every
step is COMPLETED or SKIPPED, FAILED otherwise. -/
def execute_workflow_steps (outcome : String → Bool) (fuel : Nat) (wf : Workflow) : Workflow :=
  let wf1 := run_steps outcome fuel { wf with status := .running }
  if wf1.is_complete then { wf1 with status := .completed, progress := 100 }
  else { wf1 with status := .failed }

/-- A step definition as passed to `WorkflowManager.create_workflow`. -/
structure StepDef where
  id : String
  name : String
  agent_type : Orch.AgentType
  task_type : String
  dependencies : List String := []
  priority : Orch.TaskPriority := .normal
  max_retries : Nat := 3
  allow_failure : Bool := false
deriving DecidableEq

/-- `WorkflowManager.create_workflow`: converts the step definitions and
stores a workflow in status CREATED; no validation (in particular no
dependency-cycle check) is performed. -/
def create_workflow (workflow_id name : String) (steps : List StepDef) : Workflow :=
  { id := workflow_id
    name := name
    steps := steps.map (fun d =>
      { id := d.id
        name := d.name
        agent_type := d.agent_type
        task_type := d.task_type
        dependencies := d.dependencies
        priority := d.priority
        max_retries := d.max_retries
        allow_failure := d.allow_failure }) }

end Wfm

namespace Comm

/-- `MessageType` from src/agents/communication.py. -/
inductive MessageType where
  | task_request
  | task_response
  | status_update
  | error_report
  | coordination
  | broadcast_kind
  | heartbeat
deriving DecidableEq

/-- `MessagePriority` from src/agents/communication.py. -/
inductive MessagePriority where
  | low
  | normal
  | high
  | critical
deriving DecidableEq

/-- `AgentMessage` dataclass (the opaque `content` bag is omitted;
timestamps are explicit integers). -/
structure AgentMessage where
  id : String
  sender_id : String
  recipient_id : Option String
  message_type : MessageType
  priority : MessagePriority
  timestamp : Int
  expires_at : Option Int := none
  correlation_id : Option String := none
  retry_count : Nat := 0
  max_retries : Nat := 3
deriving DecidableEq

/-- `AgentMessage.is_expired` at clock instant `now`. -/
def AgentMessage.is_expired (m : AgentMessage) (now : Int) : Bool :=
  match m.expires_at with
  | none => false
  | some e => decide (e < now)

/-- `MessageBus` state: mailboxes (`defaultdict(deque)`; a present key is a
registered or implicitly created mailbox), subscriber lists per message
type, the `pending_responses` dict (insertion ordered, iterated by
`get_pending_responses` and `cleanup_expired_messages`), the bounded
message history, and `max_history_size`. -/
structure MessageBus where
  message_queues : String → Option (List AgentMessage)
  subscribers : MessageType → List String
  pending_responses : List (String × AgentMessage)
  message_history : List AgentMessage
  max_history_size : Nat

/-- `MessageBus.__init__`. -/
def MessageBus.init : MessageBus :=
  { message_queues := fun _ => none
    subscribers := fun _ => []
    pending_responses := []
    message_history := []
    max_history_size := 1000 }

/-- `MessageBus.register_agent`: create the mailbox when absent. -/
def register_agent (bus : MessageBus) (agent_id : String) : MessageBus :=
  match bus.message_queues agent_id with
  | some _ => bus
  | none =>
      { bus with message_queues := fun a =>
          if a = agent_id then some [] else bus.message_queues a }

/-- `MessageBus.unregister_agent`: delete the mailbox and remove the first
occurrence of the agent from every subscriber list. -/
def unregister_agent (bus : MessageBus) (agent_id : String) : MessageBus :=
  match bus.message_queues agent_id with
  | none => bus
  | some _ =>
      { bus with
        message_queues := fun a =>
          if a = agent_id then none else bus.message_queues a
        subscribers := fun mt => (bus.subscribers mt).erase agent_id }

/-- `MessageBus.subscribe` (the handler callable is not modelled). -/
def subscribe (bus : MessageBus) (agent_id : String) (mt : MessageType) : MessageBus :=
  { bus with subscribers := fun t =>
      if t = mt then bus.subscribers t ++ [agent_id] else bus.subscribers t }

/-- The history update at the top of `send_message`: append, then pop the
oldest entry once the length exceeds `max_history_size`. -/
def push_history (bus : MessageBus) (m : AgentMessage) : List AgentMessage :=
  let h := bus.message_history ++ [m]
  if bus.max_history_size < h.length then h.drop 1 else h

/-- Broadcast delivery to one subscriber mailbox (`defaultdict` creates a
missing mailbox). -/
def deliver_to (qs : String → Option (List AgentMessage)) (sid : String)
    (m : AgentMessage) : String → Option (List AgentMessage) :=
  fun a => if a = sid then some ((qs sid).getD [] ++ [m]) else qs a

/-- `MessageBus.send_message`: record the message in the bounded history
(even when delivery fails), then deliver — to the recipient's mailbox when
`recipient_id` is set (returning false when that mailbox is absent), or to
every subscriber of the message type except the sender when it is a
broadcast. -/
def send_message (bus : MessageBus) (m : AgentMessage) : Bool × MessageBus :=
  let h := push_history bus m
  match m.recipient_id with
  | some r =>
    match bus.message_queues r with
    | some mq =>
        (true,
          { bus with
            message_history := h
            message_queues := fun a =>
              if a = r then some (mq ++ [m]) else bus.message_queues a })
    | none => (false, { bus with message_history := h })
  | none =>
      (true,
        { bus with
          message_history := h
          message_queues :=
            (bus.subscribers m.message_type).foldl
              (fun acc sid =>
                if sid = m.sender_id then acc else deliver_to acc sid m)
              bus.message_queues })

/-- The pop loop of `get_messages`: pop `fuel` messages, keeping those not
yet expired. -/
def get_messages_aux (now : Int) :
    Nat → List AgentMessage → List AgentMessage → List AgentMessage × List AgentMessage
  | 0, q, acc => (acc, q)
  | _ + 1, [], acc => (acc, [])
  | fuel + 1, m :: q, acc =>
      if m.is_expired now then get_messages_aux now fuel q acc
      else get_messages_aux now fuel q (acc ++ [m])

/-- `MessageBus.get_messages`: pop up to `limit` messages from the
mailbox, silently discarding expired ones. -/
def get_messages (bus : MessageBus) (now : Int) (agent_id : String) (limit : Nat) :
    List AgentMessage × MessageBus :=
  match bus.message_queues agent_id with
  | none => ([], bus)
  | some q =>
      let r := get_messages_aux now (min limit q.length) q []
      (r.1,
        { bus with message_queues := fun a =>
            if a = agent_id then some r.2 else bus.message_queues a })

/-- `MessageBus.send_request`: build the request with
`expires_at = now + timeout` and a fresh correlation id (ids are passed in,
standing for `uuid.uuid4()`), send it, and record it under
`pending_responses` when the send succeeded; a failed send raises, which is
modelled as a `none` correlation result (the history side effect of
`send_message` has already happened at that point). -/
def send_request (bus : MessageBus) (now : Int) (sender_id recipient_id : String)
    (request_type : MessageType) (timeout : Int) (msg_id correlation_id : String) :
    Option String × MessageBus :=
  let m : AgentMessage :=
    { id := msg_id
      sender_id := sender_id
      recipient_id := some recipient_id
      message_type := request_type
      priority := .normal
      timestamp := now
      expires_at := some (now + timeout)
      correlation_id := some correlation_id }
  let r := send_message bus m
  if r.1 then
    (some correlation_id,
      { r.2 with pending_responses :=
          Orch.setItemStr r.2.pending_responses correlation_id m })
  else (none, r.2)

/-- `MessageBus.send_response`: look the original request up in the
message history (oldest first), route a TASK_RESPONSE back to its sender,
and clear the pending entry; an unknown correlation id is a no-op. -/
def send_response (bus : MessageBus) (now : Int)
    (sender_id correlation_id resp_id : String) : MessageBus :=
  match bus.message_history.find?
      (fun msg => decide (msg.correlation_id = some correlation_id)) with
  | none => bus
  | some original =>
      let response : AgentMessage :=
        { id := resp_id
          sender_id := sender_id
          recipient_id := some original.sender_id
          message_type := .task_response
          priority := .normal
          timestamp := now
          correlation_id := some correlation_id }
      let bus2 := (send_message bus response).2
      { bus2 with pending_responses :=
          bus2.pending_responses.filter (fun e => decide (e.1 ≠ correlation_id)) }

/-- `MessageBus.broadcast`: build and send a recipient-less message. -/
def broadcast (bus : MessageBus) (now : Int) (sender_id : String)
    (mt : MessageType) (priority : MessagePriority) (msg_id : String) : MessageBus :=
  (send_message bus
    { id := msg_id
      sender_id := sender_id
      recipient_id := none
      message_type := mt
      priority := priority
      timestamp := now }).2

/-- `MessageBus.get_pending_responses`: correlation ids of pending requests
whose send timestamp lies before `now - timeout_seconds`.  Note this uses
the caller's `timeout_seconds` argument (default 30), not the request's
own recorded timeout. -/
def get_pending_responses (bus : MessageBus) (now : Int)
    (timeout_seconds : Int) : List String :=
  (bus.pending_responses.filter
    (fun e => decide (e.2.timestamp < now - timeout_seconds))).map (fun e => e.1)

/-- `MessageBus.cleanup_expired_messages`: drop expired requests from
`pending_responses` and expired messages from every mailbox. -/
def cleanup_expired_messages (bus : MessageBus) (now : Int) : MessageBus :=
  { bus with
    pending_responses :=
      bus.pending_responses.filter (fun e => ! e.2.is_expired now)
    message_queues := fun a =>
      (bus.message_queues a).map (fun q => q.filter (fun m => ! m.is_expired now)) }

/-- The public mutating operations of the message bus, used to state the
history-bound invariant over arbitrary operation sequences. -/
inductive BusOp where
  | register (agent_id : String)
  | unregister (agent_id : String)
  | subscribeOp (agent_id : String) (mt : MessageType)
  | send (m : AgentMessage)
  | receive (now : Int) (agent_id : String) (limit : Nat)
  | request (now : Int) (sender_id recipient_id : String) (mt : MessageType)
      (timeout : Int) (msg_id correlation_id : String)
  | respond (now : Int) (sender_id correlation_id resp_id : String)
  | broadcastOp (now : Int) (sender_id : String) (mt : MessageType)
      (priority : MessagePriority) (msg_id : String)
  | cleanup (now : Int)

/-- Apply one bus operation to the state (operation outputs discarded). -/
def applyBusOp (bus : MessageBus) : BusOp → MessageBus
  | .register aid => register_agent bus aid
  | .unregister aid => unregister_agent bus aid
  | .subscribeOp aid mt => subscribe bus aid mt
  | .send m => (send_message bus m).2
  | .receive now aid limit => (get_messages bus now aid limit).2
  | .request now s r mt w mid cid => (send_request bus now s r mt w mid cid).2
  | .respond now s cid rid => send_response bus now s cid rid
  | .broadcastOp now s mt p mid => broadcast bus now s mt p mid
  | .cleanup now => cleanup_expired_messages bus now

end Comm

open Orch Wfm Comm

/-!
Concrete fixtures used by scenario conjuncts, counterexamples and
witnesses.
-/

def reqsDouble : List ResourceRequirement :=
  [{ resource_type := "cpu", amount := 60, unit := "percent" },
   { resource_type := "cpu", amount := 60, unit := "percent" }]

def taskA : Task :=
  { id := "A", name := "A", type := "op", agent_type := .supervisor, dependencies := ["B"] }

def taskB : Task :=
  { id := "B", name := "B", type := "op", agent_type := .supervisor, dependencies := ["A"] }

def taskT1 : Task :=
  { id := "T1", name := "T1", type := "op", agent_type := .supervisor, priority := .low }

def taskT2 : Task :=
  { id := "T2", name := "T2", type := "op", agent_type := .supervisor, priority := .critical }

def taskT3 : Task :=
  { id := "T3", name := "T3", type := "op", agent_type := .supervisor, priority := .normal }

def scenarioQueue : TaskQueue :=
  add_task (add_task (add_task TaskQueue.init taskT1) taskT2) taskT3

def taskX : Task :=
  { id := "X", name := "X", type := "op", agent_type := .supervisor, max_retries := 2 }

def retryScenario : Task × TaskQueue :=
  attempt true (attempt false (attempt false (taskX, add_task TaskQueue.init taskX)))

def agentA : Agent :=
  { id := "agent1", name := "Agent 1", type := .data_analyst }

def taskR : Task :=
  { id := "TR", name := "TR", type := "op", agent_type := .data_analyst,
    resource_requirements := [{ resource_type := "cpu", amount := 150, unit := "percent" }] }

def stR : OrchState :=
  { tasks := [("TR", taskR)]
    agents := [("agent1", agentA)]
    task_queue := add_task TaskQueue.init taskR
    resource_manager := ResourceManager.init }

def stepA1 : WorkflowStep :=
  { id := "A", name := "A", agent_type := .supervisor, task_type := "op",
    allow_failure := true, max_retries := 0 }

def stepB1 : WorkflowStep :=
  { id := "B", name := "B", agent_type := .supervisor, task_type := "op",
    max_retries := 0 }

def wfAllowFail : Workflow := { id := "W1", name := "W1", steps := [stepA1] }

def wfContinue : Workflow := { id := "W2", name := "W2", steps := [stepA1, stepB1] }

def outcomeNone : String → Bool := fun _ => false

def outcomeB : String → Bool := fun i => decide (i = "B")

def cyclicQueue : TaskQueue := add_task (add_task TaskQueue.init taskA) taskB

def stepDefA : StepDef :=
  { id := "A", name := "A", agent_type := .supervisor, task_type := "op",
    dependencies := ["B"] }

def stepDefB : StepDef :=
  { id := "B", name := "B", agent_type := .supervisor, task_type := "op",
    dependencies := ["A"] }

def cyclicWorkflow : Workflow := create_workflow "W3" "cyclic" [stepDefA, stepDefB]

def busReg : MessageBus := register_agent MessageBus.init "agent_b"

def busReq : MessageBus :=
  (send_request busReg 0 "agent_a" "agent_b" MessageType.heartbeat 1 "m1" "c1").2

def msgDirect : AgentMessage :=
  { id := "m9", sender_id := "agent_a", recipient_id := some "nobody",
    message_type := .status_update, priority := .normal, timestamp := 0 }

/-!
The claim theorems, their helper lemmas and their witnesses.
-/

theorem C9_can_allocate_per_requirement :
    can_allocate ResourceManager.init reqsDouble = true ∧
    (allocate_resources ResourceManager.init "task_a" reqsDouble).1 = true ∧
    ResourceManager.init.available_resources "cpu" <
      (allocate_resources ResourceManager.init "task_a" reqsDouble).2.allocated_resources
        "cpu" := by
  have hcan : can_allocate ResourceManager.init reqsDouble = true := by
    simp [can_allocate, reqsDouble, ResourceManager.init]
    norm_num
  refine ⟨hcan, ?_, ?_⟩
  · simp [allocate_resources, hcan]
  · simp only [allocate_resources, hcan, if_true]
    simp [reqsDouble, ResourceManager.init]
    norm_num

theorem release_resources_noop (rm : ResourceManager) (task_id : String)
    (h : rm.resource_reservations task_id = none) :
    release_resources rm task_id = rm := by
  simp [release_resources, h]

theorem release_resources_clears (rm : ResourceManager) (task_id : String) :
    (release_resources rm task_id).resource_reservations task_id = none := by
  cases h : rm.resource_reservations task_id with
  | none => simp [release_resources, h]
  | some reqs => simp [release_resources, h]

theorem C7_release_idempotent (rm : ResourceManager) (task_id : String) :
    release_resources (release_resources rm task_id) task_id
      = release_resources rm task_id ∧
    (rm.resource_reservations task_id = none → release_resources rm task_id = rm) :=
  ⟨release_resources_noop _ _ (release_resources_clears rm task_id),
   fun h => release_resources_noop rm task_id h⟩

theorem C7_release_idempotent_witness :
    release_resources (release_resources ResourceManager.init "t1") "t1"
      = release_resources ResourceManager.init "t1" ∧
    release_resources ResourceManager.init "t1" = ResourceManager.init :=
  ⟨(C7_release_idempotent ResourceManager.init "t1").1,
   (C7_release_idempotent ResourceManager.init "t1").2 rfl⟩

theorem setItemStr_of_lookup_none {α : Type} (l : List (String × α)) (k : String) (v : α)
    (h : lookupStr l k = none) : setItemStr l k v = l ++ [(k, v)] := by
  induction l with
  | nil => rfl
  | cons e rest ih =>
      obtain ⟨k2, w⟩ := e
      by_cases hk : k2 = k
      · simp [lookupStr, hk] at h
      · have h2 : lookupStr rest k = none := by
          simpa [lookupStr, hk] using h
        simp [setItemStr, hk, ih h2]

theorem foldl_enqueue_ready_waiting (l : List Task) (acc : TaskQueue) :
    ((l.foldl enqueue_ready acc).waiting_dependencies = acc.waiting_dependencies) ∧
    ((l.foldl enqueue_ready acc).completed_tasks = acc.completed_tasks) := by
  induction l generalizing acc with
  | nil => exact ⟨rfl, rfl⟩
  | cons t rest ih => exact ih (enqueue_ready acc t)

theorem foldl_enqueue_ready_queues (l : List Task) (acc : TaskQueue) (p : TaskPriority) :
    (l.foldl enqueue_ready acc).queues p
      = acc.queues p
        ++ (l.filter (fun t => decide (p = t.priority))).map
            (fun t => { t with status := TaskStatus.pending }) := by
  induction l generalizing acc with
  | nil => simp
  | cons t rest ih =>
      have step : (List.foldl enqueue_ready acc (t :: rest))
          = List.foldl enqueue_ready (enqueue_ready acc t) rest := rfl
      rw [step, ih]
      by_cases h : p = t.priority
      · simp [enqueue_ready, List.filter, h]
      · simp [enqueue_ready, List.filter, h]

theorem C1_dependency_gating :
    (∀ (q : TaskQueue) (t : Task), t.dependencies ≠ [] →
        dependencies_met q t = false →
        lookupStr q.waiting_dependencies t.id = none →
        (add_task q t).queues = q.queues ∧
        (add_task q t).waiting_dependencies
          = q.waiting_dependencies
            ++ [(t.id, { t with status := TaskStatus.waiting_dependencies })]) ∧
    (∀ (q : TaskQueue) (t : Task), t.dependencies = [] →
        (add_task q t).waiting_dependencies = q.waiting_dependencies ∧
        (add_task q t).queues t.priority = q.queues t.priority ++ [t]) ∧
    (∀ (q : TaskQueue) (c : String),
        (mark_task_completed q c).waiting_dependencies
          = q.waiting_dependencies.filter
              (fun e => ! dependencies_met (with_completed q c) e.2) ∧
        ∀ p, (mark_task_completed q c).queues p
          = q.queues p
            ++ (((q.waiting_dependencies.filter
                  (fun e => dependencies_met (with_completed q c) e.2)).map
                    (fun e => e.2)).filter
                (fun t => decide (p = t.priority))).map
              (fun t => { t with status := TaskStatus.pending })) := by
  refine ⟨?_, ?_, ?_⟩
  · intro q t hne hmet hlk
    constructor
    · simp [add_task, hmet]
    · simp [add_task, hmet, setItemStr_of_lookup_none _ _ _ hlk]
  · intro q t hdep
    have hmet : dependencies_met q t = true := by
      simp [dependencies_met, hdep]
    constructor
    · simp [add_task, hmet]
    · simp [add_task, hmet]
  · intro q c
    constructor
    · exact (foldl_enqueue_ready_waiting _ _).1
    · intro p
      exact foldl_enqueue_ready_queues _ _ p

theorem C1_dependency_gating_witness :
    taskA.dependencies ≠ [] ∧
    dependencies_met TaskQueue.init taskA = false ∧
    (add_task TaskQueue.init taskA).queues = TaskQueue.init.queues ∧
    (add_task TaskQueue.init taskA).waiting_dependencies
      = [("A", { taskA with status := TaskStatus.waiting_dependencies })] := by
  have h := C1_dependency_gating.1 TaskQueue.init taskA (by decide) (by decide) rfl
  exact ⟨by decide, by decide, h.1, by simpa using h.2⟩

theorem find_match_no_filter (l : List Task) :
    find_match none l = match l with | [] => none | t :: rest => some (t, rest) := by
  cases l with
  | nil => rfl
  | cons t rest => simp [find_match]

theorem try_bucket_no_filter (q : TaskQueue) (p : TaskPriority) :
    try_bucket none q p
      = match q.queues p with
        | [] => none
        | t :: rest => some (t, set_bucket q p rest) := by
  cases h : q.queues p <;> simp [try_bucket, find_match_no_filter, h]

theorem C2_priority_dequeue_order :
    (∀ (q : TaskQueue) (p1 p2 : TaskPriority),
        p2.value < p1.value → q.queues p1 ≠ [] →
        ∃ (p : TaskPriority) (t : Task) (q2 : TaskQueue),
          get_next_task none q = some (t, q2) ∧
          (q.queues p).head? = some t ∧
          p2.value < p.value) ∧
    Option.map Prod.fst (get_next_task none scenarioQueue) = some taskT2 := by
  constructor
  · intro q p1 p2 hlt hne
    rcases hcrit : q.queues .critical with _ | ⟨tc, rc⟩
    · rcases hhigh : q.queues .high with _ | ⟨th, rh⟩
      · rcases hnorm : q.queues .normal with _ | ⟨tn, rn⟩
        · rcases hlow : q.queues .low with _ | ⟨tl, rl⟩
          · exfalso
            cases p1 <;> simp_all
          · refine ⟨.low, tl, set_bucket q .low rl, ?_, ?_, ?_⟩
            · simp [get_next_task, try_bucket_no_filter, hcrit, hhigh, hnorm, hlow]
            · simp [hlow]
            · cases p1 <;> cases p2 <;> simp_all [TaskPriority.value]
        · refine ⟨.normal, tn, set_bucket q .normal rn, ?_, ?_, ?_⟩
          · simp [get_next_task, try_bucket_no_filter, hcrit, hhigh, hnorm]
          · simp [hnorm]
          · cases p1 <;> cases p2 <;> simp_all [TaskPriority.value]
      · refine ⟨.high, th, set_bucket q .high rh, ?_, ?_, ?_⟩
        · simp [get_next_task, try_bucket_no_filter, hcrit, hhigh]
        · simp [hhigh]
        · cases p1 <;> cases p2 <;> simp_all [TaskPriority.value]
    · refine ⟨.critical, tc, set_bucket q .critical rc, ?_, ?_, ?_⟩
      · simp [get_next_task, try_bucket_no_filter, hcrit]
      · simp [hcrit]
      · cases p1 <;> cases p2 <;> simp_all [TaskPriority.value]
  · decide

theorem C2_priority_dequeue_order_witness :
    TaskPriority.low.value < TaskPriority.critical.value ∧
    scenarioQueue.queues .critical ≠ [] ∧
    ∃ (p : TaskPriority) (t : Task) (q2 : TaskQueue),
      get_next_task none scenarioQueue = some (t, q2) ∧
      (scenarioQueue.queues p).head? = some t ∧
      TaskPriority.low.value < p.value :=
  ⟨by decide, by decide,
   C2_priority_dequeue_order.1 scenarioQueue .critical .low (by decide) (by decide)⟩

theorem C5_retry_policy :
    (∀ (t : Task) (q : TaskQueue), t.retry_count < t.max_retries →
        dependencies_met q t = true →
        (execute_task_result false t q).1.retry_count = t.retry_count + 1 ∧
        (execute_task_result false t q).1.status = TaskStatus.pending ∧
        (execute_task_result false t q).1.assigned_agent = none ∧
        (execute_task_result false t q).2.queues t.priority
          = q.queues t.priority ++ [(execute_task_result false t q).1] ∧
        (execute_task_result false t q).2.waiting_dependencies
          = q.waiting_dependencies) ∧
    (∀ (t : Task) (q : TaskQueue), t.max_retries ≤ t.retry_count →
        (execute_task_result false t q).1.status = TaskStatus.failed ∧
        (execute_task_result false t q).2 = q) ∧
    (retryScenario.1.status = TaskStatus.completed ∧
      retryScenario.1.retry_count = 2) := by
  refine ⟨?_, ?_, by decide, by decide⟩
  · intro t q hretry hdep
    have hcan :
        Task.can_retry { t with status := TaskStatus.failed, error := some "task error" }
          = true := by
      simpa [Task.can_retry] using hretry
    have hmet :
        dependencies_met q
          { t with
            status := TaskStatus.pending
            error := some "task error"
            retry_count := t.retry_count + 1
            assigned_agent := none } = true := hdep
    refine ⟨?_, ?_, ?_, ?_, ?_⟩ <;>
      simp [execute_task_result, hcan, add_task, hmet]
  · intro t q hexhausted
    have hcan :
        Task.can_retry { t with status := TaskStatus.failed, error := some "task error" }
          = false := by
      simp [Task.can_retry]
      omega
    exact ⟨by simp [execute_task_result, hcan], by simp [execute_task_result, hcan]⟩

theorem C5_retry_policy_witness :
    taskX.retry_count < taskX.max_retries ∧
    dependencies_met TaskQueue.init taskX = true ∧
    (execute_task_result false taskX TaskQueue.init).1.retry_count = 1 ∧
    (execute_task_result false taskX TaskQueue.init).1.status = TaskStatus.pending := by
  have h := C5_retry_policy.1 taskX TaskQueue.init (by decide) (by decide)
  exact ⟨by decide, by decide, h.1, h.2.1⟩

theorem agentA_available : agentA.is_available = true := by
  simp [Agent.is_available, agentA]

theorem taskR_not_admissible :
    can_allocate ResourceManager.init taskR.resource_requirements = false := by
  simp [can_allocate, taskR, ResourceManager.init]
  norm_num

theorem assign_task_admission_fail (st : OrchState) (task : Task) (agent : Agent)
    (ht : lookupStr st.tasks task.id = some task)
    (hs : task.status = TaskStatus.pending)
    (ha : lookupStr st.agents agent.id = some agent)
    (hav : agent.is_available = true)
    (hr : task.resource_requirements ≠ [])
    (hc : can_allocate st.resource_manager task.resource_requirements = false) :
    assign_task st task.id agent.id = (false, st) := by
  simp [assign_task, ht, hs, ha, hav, hr, hc]

theorem stR_next_task :
    get_next_task (some agentA.type) stR.task_queue
      = some (taskR, set_bucket stR.task_queue .normal []) := by
  have hq : stR.task_queue.queues = fun p =>
      if p = TaskPriority.normal then [taskR] else [] := by
    funext p
    simp [stR, add_task, dependencies_met, taskR, TaskQueue.init]
  simp [get_next_task, try_bucket, hq, find_match, taskR, agentA]

theorem stR_schedule_eq :
    schedule_for_agent stR agentA
      = { stR with task_queue := set_bucket stR.task_queue .normal [] } := by
  have hfail := assign_task_admission_fail
    { stR with task_queue := set_bucket stR.task_queue .normal [] } taskR agentA
    (by simp [stR, taskR, lookupStr]) rfl
    (by simp [stR, taskR, agentA, lookupStr]) agentA_available (by simp [taskR])
    taskR_not_admissible
  simp only [schedule_for_agent, stR_next_task, hfail]

theorem C3_counterexample_task_dropped :
    ((schedule_for_agent stR agentA).task_queue.queues .critical = [] ∧
      (schedule_for_agent stR agentA).task_queue.queues .high = [] ∧
      (schedule_for_agent stR agentA).task_queue.queues .normal = [] ∧
      (schedule_for_agent stR agentA).task_queue.queues .low = []) ∧
    (schedule_for_agent stR agentA).task_queue.waiting_dependencies = [] ∧
    lookupStr (schedule_for_agent stR agentA).tasks "TR" = some taskR ∧
    taskR.status = TaskStatus.pending := by
  rw [stR_schedule_eq]
  refine ⟨⟨?_, ?_, ?_, ?_⟩, ?_, ?_, rfl⟩ <;>
    simp [set_bucket, stR, add_task, dependencies_met, taskR, TaskQueue.init, lookupStr]

theorem C3_admission_failure_drops_task (st : OrchState) (agent : Agent) (task : Task)
    (q2 : TaskQueue)
    (hq : get_next_task (some agent.type) st.task_queue = some (task, q2))
    (ht : lookupStr st.tasks task.id = some task)
    (hs : task.status = TaskStatus.pending)
    (ha : lookupStr st.agents agent.id = some agent)
    (hav : agent.is_available = true)
    (hr : task.resource_requirements ≠ [])
    (hc : can_allocate st.resource_manager task.resource_requirements = false) :
    (assign_task { st with task_queue := q2 } task.id agent.id).1 = false ∧
    schedule_for_agent st agent = { st with task_queue := q2 } := by
  have hfail :
      assign_task { st with task_queue := q2 } task.id agent.id
        = (false, { st with task_queue := q2 }) :=
    assign_task_admission_fail _ task agent ht hs ha hav hr hc
  constructor
  · rw [hfail]
  · simp only [schedule_for_agent, hq]
    rw [hfail]

theorem C3_admission_failure_drops_task_witness :
    (assign_task { stR with task_queue := set_bucket stR.task_queue .normal [] }
        taskR.id agentA.id).1 = false ∧
    schedule_for_agent stR agentA
      = { stR with task_queue := set_bucket stR.task_queue .normal [] } :=
  C3_admission_failure_drops_task stR agentA taskR
    (set_bucket stR.task_queue .normal []) stR_next_task (by simp [stR, taskR, lookupStr]) rfl
    (by simp [stR, taskR, agentA, lookupStr]) agentA_available (by simp [taskR])
    taskR_not_admissible

theorem is_complete_set_status (wf : Workflow) (s : WorkflowStatus) :
    (({ wf with status := s } : Workflow)).is_complete = wf.is_complete := rfl

theorem is_complete_set_status_progress (wf : Workflow) (s : WorkflowStatus) (p : ℚ) :
    (({ wf with status := s, progress := p } : Workflow)).is_complete
      = wf.is_complete := rfl

theorem has_failed_set_status (wf : Workflow) (s : WorkflowStatus) :
    (({ wf with status := s } : Workflow)).has_failed = wf.has_failed := rfl

theorem get_next_pending_step_set_status (wf : Workflow) (s : WorkflowStatus) :
    get_next_pending_step { wf with status := s } = get_next_pending_step wf := rfl

theorem C4_counterexample_allow_failure_failed :
    (execute_workflow_steps outcomeNone 3 wfAllowFail).status = WorkflowStatus.failed ∧
    (execute_workflow_steps outcomeNone 3 wfAllowFail).steps.all
      (fun s => ! decide (s.status = StepStatus.failed) || s.allow_failure) = true ∧
    (execute_workflow_steps outcomeNone 3 wfAllowFail).steps.any
      (fun s => decide (s.status = StepStatus.failed)) = true := by
  decide

theorem C4_final_status_iff :
    (∀ (outcome : String → Bool) (fuel : Nat) (wf : Workflow),
        (execute_workflow_steps outcome fuel wf).status = WorkflowStatus.completed
          ↔ (execute_workflow_steps outcome fuel wf).is_complete = true) ∧
    ((execute_workflow_steps outcomeB 3 wfContinue).steps.map (fun s => s.status)
        = [StepStatus.failed, StepStatus.completed] ∧
      (execute_workflow_steps outcomeB 3 wfContinue).status = WorkflowStatus.failed) := by
  constructor
  · intro outcome fuel wf
    unfold execute_workflow_steps
    cases h : (run_steps outcome fuel { wf with status := WorkflowStatus.running }).is_complete
    · simp [h, is_complete_set_status]
    · simp [h, is_complete_set_status_progress]
  · exact ⟨by decide, by decide⟩

theorem C6_counterexample_no_rejection :
    cyclicQueue.waiting_dependencies
      = [("A", { taskA with status := TaskStatus.waiting_dependencies }),
         ("B", { taskB with status := TaskStatus.waiting_dependencies })] ∧
    (cyclicQueue.queues .critical = [] ∧ cyclicQueue.queues .high = [] ∧
      cyclicQueue.queues .normal = [] ∧ cyclicQueue.queues .low = []) ∧
    cyclicWorkflow.status = WorkflowStatus.created ∧
    cyclicWorkflow.error = none ∧
    cyclicWorkflow.steps.length = 2 := by
  decide

theorem C6_cycle_handling :
    (∀ (wf : Workflow) (outcome : String → Bool) (fuel : Nat),
        wf.is_complete = false → wf.has_failed = false →
        get_next_pending_step wf = none →
        (execute_workflow_steps outcome (fuel + 1) wf).status = WorkflowStatus.failed ∧
        (execute_workflow_steps outcome (fuel + 1) wf).error
          = some "Workflow deadlock: no steps can proceed") ∧
    (mark_task_completed cyclicQueue "C").waiting_dependencies.map (fun e => e.1)
      = ["A", "B"] ∧
    (execute_workflow_steps outcomeNone 2 cyclicWorkflow).status
      = WorkflowStatus.failed ∧
    (execute_workflow_steps outcomeNone 2 cyclicWorkflow).error
      = some "Workflow deadlock: no steps can proceed" := by
  refine ⟨?_, by decide, by decide, by decide⟩
  intro wf outcome fuel h1 h2 h3
  have hrun : run_steps outcome (fuel + 1) { wf with status := WorkflowStatus.running }
      = { wf with
          status := WorkflowStatus.failed
          error := some "Workflow deadlock: no steps can proceed" } := by
    simp only [run_steps, is_complete_set_status, has_failed_set_status,
      get_next_pending_step_set_status, h1, h2, h3]
    rfl
  have hcomp :
      (({ wf with
          status := WorkflowStatus.failed
          error := some "Workflow deadlock: no steps can proceed" } : Workflow)).is_complete
        = false := h1
  constructor
  · unfold execute_workflow_steps
    rw [hrun]
    simp [hcomp]
  · unfold execute_workflow_steps
    rw [hrun]
    simp [hcomp]

theorem C6_cycle_handling_witness :
    cyclicWorkflow.is_complete = false ∧
    cyclicWorkflow.has_failed = false ∧
    get_next_pending_step cyclicWorkflow = none ∧
    (execute_workflow_steps outcomeNone (1 + 1) cyclicWorkflow).status
      = WorkflowStatus.failed := by
  have h := C6_cycle_handling.1 cyclicWorkflow outcomeNone 1 (by decide) (by decide)
    (by decide)
  exact ⟨by decide, by decide, by decide, h.1⟩

theorem C8_counterexample_expired_not_listed :
    (send_request busReg 0 "agent_a" "agent_b" MessageType.heartbeat 1 "m1" "c1").1
      = some "c1" ∧
    busReq.pending_responses.map (fun e => e.1) = ["c1"] ∧
    get_pending_responses busReq 2 30 = [] ∧
    (cleanup_expired_messages busReq 2).pending_responses = [] := by
  decide

theorem C8_request_expiry (bus : MessageBus) (t0 w now : Int)
    (sender recip mid cid : String) (rt : MessageType) (q : List AgentMessage)
    (hq : bus.message_queues recip = some q)
    (hp : bus.pending_responses = []) :
    ((send_request bus t0 sender recip rt w mid cid).2.pending_responses.map
        (fun e => e.1) = [cid]) ∧
    (get_pending_responses (send_request bus t0 sender recip rt w mid cid).2 now 30
        = if t0 < now - 30 then [cid] else []) ∧
    (t0 + w < now →
      (cleanup_expired_messages
        (send_request bus t0 sender recip rt w mid cid).2 now).pending_responses
          = []) := by
  have hsend :
      (send_request bus t0 sender recip rt w mid cid).2.pending_responses
        = [(cid,
            { id := mid
              sender_id := sender
              recipient_id := some recip
              message_type := rt
              priority := MessagePriority.normal
              timestamp := t0
              expires_at := some (t0 + w)
              correlation_id := some cid })] := by
    simp [send_request, send_message, hq, hp, setItemStr]
  refine ⟨?_, ?_, ?_⟩
  · rw [hsend]
    simp
  · rw [get_pending_responses, hsend]
    by_cases h : t0 < now - 30 <;> simp [h]
  · intro hlate
    rw [cleanup_expired_messages]
    simp only [hsend]
    simp [AgentMessage.is_expired, hlate]

theorem C8_request_expiry_witness :
    busReg.message_queues "agent_b" = some [] ∧
    busReg.pending_responses = [] ∧
    busReq.pending_responses.map (fun e => e.1) = ["c1"] ∧
    (cleanup_expired_messages busReq 2).pending_responses = [] := by
  have h := C8_request_expiry busReg 0 1 2 "agent_a" "agent_b" "m1" "c1"
    MessageType.heartbeat [] (by decide) rfl
  exact ⟨by decide, rfl, h.1, h.2.2 (by decide)⟩

theorem push_history_length_le (bus : MessageBus) (m : AgentMessage)
    (h : bus.message_history.length ≤ bus.max_history_size) :
    (push_history bus m).length ≤ bus.max_history_size := by
  unfold push_history
  by_cases hc : bus.max_history_size < (bus.message_history ++ [m]).length
  · simp only [hc, if_true]
    simp
    omega
  · simp only [hc, if_false]
    simp at hc ⊢
    omega

theorem send_message_components (bus : MessageBus) (m : AgentMessage) :
    (send_message bus m).2.message_history = push_history bus m ∧
    (send_message bus m).2.max_history_size = bus.max_history_size ∧
    (send_message bus m).2.pending_responses = bus.pending_responses := by
  rcases hm : m.recipient_id with _ | r
  · simp [send_message, hm]
  · cases hq : bus.message_queues r <;> simp [send_message, hm, hq]

theorem send_message_inv (bus : MessageBus) (m : AgentMessage)
    (h : bus.message_history.length ≤ bus.max_history_size) :
    (send_message bus m).2.message_history.length
        ≤ (send_message bus m).2.max_history_size ∧
    (send_message bus m).2.max_history_size = bus.max_history_size := by
  obtain ⟨h1, h2, _⟩ := send_message_components bus m
  rw [h1, h2]
  exact ⟨push_history_length_le bus m h, rfl⟩

theorem applyBusOp_inv (bus : MessageBus) (op : BusOp)
    (h : bus.message_history.length ≤ bus.max_history_size) :
    (applyBusOp bus op).message_history.length ≤ (applyBusOp bus op).max_history_size ∧
    (applyBusOp bus op).max_history_size = bus.max_history_size := by
  cases op with
  | register aid =>
      cases hq : bus.message_queues aid <;> simp [applyBusOp, register_agent, hq, h]
  | unregister aid =>
      cases hq : bus.message_queues aid <;> simp [applyBusOp, unregister_agent, hq, h]
  | subscribeOp aid mt => exact ⟨h, rfl⟩
  | send m => exact send_message_inv bus m h
  | receive now aid limit =>
      cases hq : bus.message_queues aid <;> simp [applyBusOp, get_messages, hq, h]
  | request now s r mt w mid cid =>
      have key := send_message_inv bus
        { id := mid
          sender_id := s
          recipient_id := some r
          message_type := mt
          priority := MessagePriority.normal
          timestamp := now
          expires_at := some (now + w)
          correlation_id := some cid } h
      by_cases hr : (send_message bus
          { id := mid
            sender_id := s
            recipient_id := some r
            message_type := mt
            priority := MessagePriority.normal
            timestamp := now
            expires_at := some (now + w)
            correlation_id := some cid }).1
        <;> simp [applyBusOp, send_request, hr] <;> exact key
  | respond now s cid rid =>
      rcases hf : bus.message_history.find?
          (fun msg => decide (msg.correlation_id = some cid)) with _ | orig
      · simp [applyBusOp, send_response, hf, h]
      · have key := send_message_inv bus
          { id := rid
            sender_id := s
            recipient_id := some orig.sender_id
            message_type := MessageType.task_response
            priority := MessagePriority.normal
            timestamp := now
            correlation_id := some cid } h
        simp [applyBusOp, send_response, hf]
        exact key
  | broadcastOp now s mt p mid =>
      exact send_message_inv bus
        { id := mid
          sender_id := s
          recipient_id := none
          message_type := mt
          priority := p
          timestamp := now } h
  | cleanup now => exact ⟨h, rfl⟩

theorem foldl_applyBusOp_inv (ops : List BusOp) (bus : MessageBus)
    (h : bus.message_history.length ≤ bus.max_history_size) :
    (ops.foldl applyBusOp bus).message_history.length
        ≤ (ops.foldl applyBusOp bus).max_history_size ∧
    (ops.foldl applyBusOp bus).max_history_size = bus.max_history_size := by
  induction ops generalizing bus with
  | nil => exact ⟨h, rfl⟩
  | cons op rest ih =>
      have hop := applyBusOp_inv bus op h
      have hrest := ih (applyBusOp bus op) hop.1
      exact ⟨hrest.1, hrest.2.trans hop.2⟩

theorem C10_history_bound :
    (∀ (ops : List BusOp),
        (ops.foldl applyBusOp MessageBus.init).message_history.length ≤ 1000) ∧
    (∀ (bus : MessageBus) (m : AgentMessage), 0 < bus.max_history_size →
        bus.message_history.length = bus.max_history_size →
        (send_message bus m).2.message_history
          = bus.message_history.tail ++ [m]) ∧
    (∀ (bus : MessageBus) (m : AgentMessage) (r : String),
        0 < bus.max_history_size →
        m.recipient_id = some r → bus.message_queues r = none →
        (send_message bus m).1 = false ∧
        m ∈ (send_message bus m).2.message_history) := by
  refine ⟨?_, ?_, ?_⟩
  · intro ops
    have h := foldl_applyBusOp_inv ops MessageBus.init (by simp [MessageBus.init])
    have hmax : (ops.foldl applyBusOp MessageBus.init).max_history_size = 1000 := h.2
    calc (ops.foldl applyBusOp MessageBus.init).message_history.length
        ≤ (ops.foldl applyBusOp MessageBus.init).max_history_size := h.1
      _ = 1000 := hmax
  · intro bus m hpos hfull
    rw [(send_message_components bus m).1]
    unfold push_history
    have hlen : bus.max_history_size < (bus.message_history ++ [m]).length := by
      simp [hfull]
    simp only [hlen, if_true]
    cases hh : bus.message_history with
    | nil => rw [hh] at hfull; simp at hfull; omega
    | cons x l => simp
  · intro bus m r hpos hm hq
    constructor
    · simp [send_message, hm, hq]
    · have hhist : (send_message bus m).2.message_history = push_history bus m :=
        (send_message_components bus m).1
      rw [hhist]
      unfold push_history
      by_cases hc : bus.max_history_size < (bus.message_history ++ [m]).length
      · simp only [hc, if_true]
        cases hh : bus.message_history with
        | nil => rw [hh] at hc; simp at hc; omega
        | cons x l => simp
      · simp only [hc, if_false]
        simp

theorem C10_history_bound_witness :
    0 < MessageBus.init.max_history_size ∧
    msgDirect.recipient_id = some "nobody" ∧
    MessageBus.init.message_queues "nobody" = none ∧
    (send_message MessageBus.init msgDirect).1 = false ∧
    msgDirect ∈ (send_message MessageBus.init msgDirect).2.message_history := by
  have h := C10_history_bound.2.2 MessageBus.init msgDirect "nobody"
    (by decide) rfl rfl
  exact ⟨by decide, rfl, rfl, h.1, h.2⟩
